import Mathlib

/-!
# Verification of the UniMixMqttServer messaging core

Shallow embedding of the transport-agnostic messaging core of the
UniMixMqttServer repository: the framed serial-link transport
(`SerialTransport`: wire framing, subscription wildcard matching,
reconnection backoff), the `MessageBus` (primary/fallback publish,
handler fan-out, statistics), the `MessageRouter` dispatch, and the
`MessagePublisher` façade.

Strings on the wire are modelled as `String` or `List Char`; JS numbers
used by the backoff computation are modelled as `ℚ` (all values involved
are exact); the JS `Set`s holding message handlers are modelled as
duplicate-free lists in insertion order; `Map`s are association lists in
insertion order with unique keys.
-/

namespace UniMix

/-! ## SerialTransport: wildcard topic matching

`SerialTransport.isTopicMatched` builds, for each subscribed pattern that
contains a `'+'`, the JS regex `^pattern$` with every `+` replaced by
`[^/]+` and every `#` replaced by `.*`, and tests the incoming topic;
a pattern without `'+'` is compared for exact equality.  We embed the
regexes that this transformation can produce as token lists: a literal
character, the atom `[^/]+`, or the atom `.*` (topic patterns in this
system contain no other regex metacharacters). -/

/-- One token of the regex produced from a subscription pattern:
a literal character, `[^/]+` (one or more non-slash characters), or
`.*` (any characters). -/
inductive RTok where
  | lit (c : Char)
  | plusSeg
  | hashStar
deriving DecidableEq, Repr

/-- The transformation `pattern.replace(/\+/g, "[^/]+").replace(/#/g, ".*")`
performed by `SerialTransport.isTopicMatched`, as a token list. -/
def compilePattern (pattern : String) : List RTok :=
  pattern.data.map (fun c =>
    if c = '+' then RTok.plusSeg
    else if c = '#' then RTok.hashStar
    else RTok.lit c)

/-- Anchored matching (`^...$`) of a compiled pattern against a topic:
the semantics of `new RegExp("^" + pattern + "$").test(topic)` for
the regexes produced by `compilePattern`. -/
def rmatch : List RTok → List Char → Bool
  | [], ts => ts.isEmpty
  | .lit _ :: _, [] => false
  | .lit c :: ps, t :: ts => c = t && rmatch ps ts
  | .hashStar :: ps, ts =>
      rmatch ps ts ||
        match ts with
        | [] => false
        | _ :: ts' => rmatch (.hashStar :: ps) ts'
  | .plusSeg :: ps, ts =>
      match ts with
      | [] => false
      | t :: ts' => t ≠ '/' && (rmatch ps ts' || rmatch (.plusSeg :: ps) ts')
termination_by ps ts => ps.length + ts.length

/-- `SerialTransport.isTopicMatched`: iterate over the subscribed topics;
a pattern containing `'+'` is compiled to a regex and tested, any other
pattern is compared for exact equality. -/
def isTopicMatched (subscribedTopics : List String) (incomingTopic : String) : Bool :=
  subscribedTopics.any (fun subscribedTopic =>
    if subscribedTopic.data.contains '+' then
      rmatch (compilePattern subscribedTopic) incomingTopic.data
    else
      subscribedTopic = incomingTopic)

/-- The subscription test of `SerialTransport.handleIncomingMessage`:
`subscribedTopics.size === 0 || subscribedTopics.has(topic) || isTopicMatched(topic)`. -/
def isSubscribedTopic (subscribedTopics : List String) (topic : String) : Bool :=
  subscribedTopics.isEmpty || subscribedTopics.contains topic ||
    isTopicMatched subscribedTopics topic

/-- Modelled from the spec (for comparison with the code): delivery rule
claimed by the specification — a topic is delivered iff the subscription
set contains an exact match or a wildcard pattern matches it under
`+` ↦ `[^/]+`, `#` ↦ `.*`, anchored at start and end (the wildcard rule
applied to every pattern, not only those containing `'+'`). -/
def specDelivered (subscribedTopics : List String) (topic : String) : Bool :=
  subscribedTopics.contains topic ||
    subscribedTopics.any (fun p => rmatch (compilePattern p) topic.data)

/-! ## SerialTransport: wire framing

`SerialTransport.publish` writes `"<topic>:<payload>\n"`.  Inbound bytes
pass through a `ReadlineParser` with delimiter `"\n"`, which emits each
completed chunk between delimiters; the `data` callback calls
`handleIncomingMessage(data.trim())`, which splits the line at its first
`':'` (`data.indexOf(":")`), drops the line if there is none, filters by
the subscription set and invokes every registered handler once.
Strings on this path are modelled as `List Char`. -/

/-- The characters removed by JavaScript `String.prototype.trim`
(Unicode WhiteSpace plus line terminators). -/
def jsWhitespaceChars : List Char :=
  [' ', '\t', '\n', '\r', '\x0b', '\x0c',
   Char.ofNat 0x00A0, Char.ofNat 0xFEFF, Char.ofNat 0x1680,
   Char.ofNat 0x2000, Char.ofNat 0x2001, Char.ofNat 0x2002,
   Char.ofNat 0x2003, Char.ofNat 0x2004, Char.ofNat 0x2005,
   Char.ofNat 0x2006, Char.ofNat 0x2007, Char.ofNat 0x2008,
   Char.ofNat 0x2009, Char.ofNat 0x200A, Char.ofNat 0x2028,
   Char.ofNat 0x2029, Char.ofNat 0x202F, Char.ofNat 0x205F,
   Char.ofNat 0x3000]

def isJsWhitespace (c : Char) : Bool := jsWhitespaceChars.contains c

/-- JavaScript `data.trim()`: strip leading and trailing whitespace. -/
def jsTrim (s : List Char) : List Char :=
  ((s.dropWhile isJsWhitespace).reverse.dropWhile isJsWhitespace).reverse

/-- `SerialTransport.publish`: the bytes written for one message,
`` `${topic}:${payloadString}\n` ``. -/
def serialEncode (topic payload : List Char) : List Char :=
  topic ++ ':' :: (payload ++ ['\n'])

/-- Split a byte stream at each `'\n'`; the final element is the
incomplete chunk after the last delimiter. -/
def splitOnNl : List Char → List (List Char)
  | [] => [[]]
  | c :: rest =>
    match splitOnNl rest with
    | [] => [[]]
    | l :: ls => if c = '\n' then [] :: l :: ls else (c :: l) :: ls

/-- The complete lines the `ReadlineParser` emits for a byte stream:
every chunk before a delimiter (the trailing incomplete chunk stays
buffered). -/
def readlineLines (w : List Char) : List (List Char) :=
  (splitOnNl w).dropLast

/-- `data.indexOf(":")` followed by the two `substring` calls of
`SerialTransport.handleIncomingMessage`: split at the first `':'`,
`none` when the line has no `':'`. -/
def splitFirstColon : List Char → Option (List Char × List Char)
  | [] => none
  | c :: rest =>
    if c = ':' then some ([], rest)
    else (splitFirstColon rest).map (fun q => (c :: q.1, q.2))

/-- The parse performed on one received line: the `data` callback first
applies `.trim()`, then `handleIncomingMessage` splits at the first
`':'`. -/
def serialParseLine (line : List Char) : Option (List Char × List Char) :=
  splitFirstColon (jsTrim line)

/-- `SerialTransport.handleIncomingMessage` on one received line, with
handlers modelled by identity (`ℕ`): the list of handler invocations
`(handler, topic, payload)` it performs.  A line with no `':'` is
dropped; a topic failing the subscription filter is dropped; otherwise
every registered handler is invoked once (handler exceptions are caught
per handler and do not stop delivery). -/
def serialHandleIncoming (subscribedTopics : List String) (handlers : List ℕ)
    (line : List Char) : List (ℕ × String × String) :=
  match serialParseLine line with
  | none => []
  | some (t, p) =>
    if isSubscribedTopic subscribedTopics (String.mk t) then
      handlers.map (fun h => (h, String.mk t, String.mk p))
    else []

/-! ## SerialTransport: reconnection backoff

Constructor defaults: `reconnectDelay 2000`, `maxReconnectAttempts -1`
(infinite), `reconnectBackoffMultiplier 1.5`, `maxReconnectDelay 30000`;
`currentReconnectDelay` starts at `config.reconnectDelay || 2000`.
In the reconnect timer callback a failed attempt sets
`currentReconnectDelay = Math.min(currentReconnectDelay * multiplier, maxDelay)`
with `multiplier = config.reconnectBackoffMultiplier || 1.5` and
`maxDelay = config.maxReconnectDelay || 30000`.  JS numbers here are
modelled as `ℚ`; `x || default` on a number is `default` exactly when
`x` is falsy, i.e. `0` (`NaN` is outside the model). -/

/-- JavaScript `x || d` for a numeric `x`: `d` when `x` is falsy (`0`). -/
def jsOrQ (x d : ℚ) : ℚ := if x = 0 then d else x

/-- The reconnection-relevant fields of `SerialTransportConfig`. -/
structure SerialReconnectConfig where
  reconnectDelay : ℚ
  reconnectBackoffMultiplier : ℚ
  maxReconnectDelay : ℚ
deriving DecidableEq, Repr

/-- The backoff update run after a failed reconnection attempt. -/
def nextReconnectDelay (cfg : SerialReconnectConfig) (d : ℚ) : ℚ :=
  min (d * jsOrQ cfg.reconnectBackoffMultiplier (3/2))
    (jsOrQ cfg.maxReconnectDelay 30000)

/-- `currentReconnectDelay` before the `n`-th reconnection wait:
`reconnectDelay || 2000` initially, advanced by `nextReconnectDelay`
after every failed attempt. -/
def reconnectDelaySeq (cfg : SerialReconnectConfig) : ℕ → ℚ
  | 0 => jsOrQ cfg.reconnectDelay 2000
  | n + 1 => nextReconnectDelay cfg (reconnectDelaySeq cfg n)

/-! ## SerialTransport: connection-loss handling -/

/-- JS `Set.add` on a handler set, with the set modelled as its elements
in insertion order: adding an element already present is a no-op. -/
def setAdd (l : List ℕ) (h : ℕ) : List ℕ := if h ∈ l then l else l ++ [h]

/-- JS `Set.delete`. -/
def setDelete (l : List ℕ) (h : ℕ) : List ℕ := l.filter (fun x => x ≠ h)

/-- The mutable fields of `SerialTransport` read or written by
`handleConnectionLoss`, `onMessage` and `removeMessageHandler`, plus the
two configuration fields `handleConnectionLoss` consults.  The pending
`setTimeout` reconnect timer is modelled by whether one is scheduled. -/
structure SerialState where
  autoReconnectCfg : Bool
  maxReconnectAttemptsCfg : Int
  shouldAutoReconnect : Bool
  isReconnecting : Bool
  reconnectAttempts : ℕ
  reconnectTimerPending : Bool
  messageHandlers : List ℕ
deriving DecidableEq, Repr

/-- `SerialTransport.handleConnectionLoss`: return unchanged (scheduling
nothing) when auto-reconnect is off, a reconnection is already in
progress, or `maxAttempts > 0 && reconnectAttempts >= maxAttempts`
where `maxAttempts = config.maxReconnectAttempts || -1` (a configured
`0` is falsy and so means infinite); otherwise mark reconnecting,
increment the attempt counter and schedule the reconnect timer. -/
def handleConnectionLoss (s : SerialState) : SerialState :=
  if !s.autoReconnectCfg || !s.shouldAutoReconnect then s
  else if s.isReconnecting then s
  else
    let maxAttempts : Int :=
      if s.maxReconnectAttemptsCfg = 0 then -1 else s.maxReconnectAttemptsCfg
    if maxAttempts > 0 ∧ (s.reconnectAttempts : Int) ≥ maxAttempts then s
    else
      { s with isReconnecting := true,
               reconnectAttempts := s.reconnectAttempts + 1,
               reconnectTimerPending := true }

/-- `SerialTransport.onMessage`: `messageHandlers.add(handler)`. -/
def serialOnMessage (s : SerialState) (h : ℕ) : SerialState :=
  { s with messageHandlers := setAdd s.messageHandlers h }

/-- `SerialTransport.removeMessageHandler`: `messageHandlers.delete(handler)`. -/
def serialRemoveMessageHandler (s : SerialState) (h : ℕ) : SerialState :=
  { s with messageHandlers := setDelete s.messageHandlers h }

/-! ## MessageBus

Transports are held in a JS `Map` keyed by name, modelled as an
association list in insertion order with unique keys; since each key
holds one object, object identity (`transport !== primaryTransport`)
coincides with key equality.  A transport's behaviour on this one
`publish(topic, payload)` call is modelled by `pubErr`: `none` means the
call resolves, `some e` means it rejects with error `e`.
`transport instanceof MqttTransport` is modelled by `kind = mqtt`. -/

inductive TransportKind where
  | mqtt
  | serial
deriving DecidableEq, Repr

structure TransportModel where
  kind : TransportKind
  connected : Bool
  pubErr : Option String
  busWired : Bool
deriving DecidableEq, Repr

structure BusState where
  transports : List (String × TransportModel)
  primaryTransportName : Option String
  fallbackEnabled : Bool
  configPrimaryTransport : Option TransportKind
  messagesSent : ℕ
  messagesReceived : ℕ
  lastActivity : Option ℕ
  handlers : List ℕ
deriving DecidableEq, Repr

/-- JS truthiness test `!this.primaryTransportName`: `undefined` and the
empty string are falsy. -/
def isFalsyName : Option String → Bool
  | none => true
  | some s => s = ""

/-- `MessageBus.getConnectedTransports`: the registered transports, in
registration order, that report `isConnected()`. -/
def getConnectedTransports (s : BusState) : List (String × TransportModel) :=
  s.transports.filter (fun nt => nt.2.connected)

/-- The `primaryTransport` local of `MessageBus.publish`: looked up only
when `this.primaryTransportName` is truthy; `none` when the name is
unset, falsy, or absent from the map. -/
def primaryLookup (s : BusState) : Option (String × TransportModel) :=
  match s.primaryTransportName with
  | none => none
  | some n => if n = "" then none else s.transports.find? (fun nt => nt.1 = n)

/-- `this.messagesSent++; this.lastActivity = new Date()` on a successful
publish. -/
def incrSent (s : BusState) (now : ℕ) : BusState :=
  { s with messagesSent := s.messagesSent + 1, lastActivity := some now }

/-- The connected transports the fallback loop actually attempts: the
loop skips `transport !== primaryTransport`, i.e. the transport stored
under the primary key when `primaryLookup` found one. -/
def fallbackCandidates (s : BusState) : List (String × TransportModel) :=
  (getConnectedTransports s).filter
    (fun nt => !((primaryLookup s).any (fun p => p.1 = nt.1)))

/-- The fallback loop of `MessageBus.publish`: when fallback is enabled,
attempt every candidate in registration order; the first whose publish
resolves wins (each rejection is caught and logged); otherwise reject
with `"Failed to publish message via any transport"`. -/
def busFallback (s : BusState) (now : ℕ) : Except String String × BusState :=
  if s.fallbackEnabled then
    match (fallbackCandidates s).find? (fun nt => nt.2.pubErr.isNone) with
    | some (n, _) => (Except.ok n, incrSent s now)
    | none => (Except.error "Failed to publish message via any transport", s)
  else (Except.error "Failed to publish message via any transport", s)

/-- `MessageBus.publish`: reject at once when no transport is connected;
try the primary when it exists and is connected, returning on success;
otherwise fall back.  The `Except.ok` value names the transport that
published; the returned `BusState` carries the statistics updates. -/
def busPublish (s : BusState) (now : ℕ) : Except String String × BusState :=
  if (getConnectedTransports s).isEmpty then
    (Except.error "No connected transports available", s)
  else
    match primaryLookup s with
    | some (pn, pt) =>
      if pt.connected && pt.pubErr.isNone then (Except.ok pn, incrSent s now)
      else busFallback s now
    | none => busFallback s now

/-- JS `Map.set`: replace in place when the key exists, append otherwise. -/
def mapSet (l : List (String × TransportModel)) (k : String) (v : TransportModel) :
    List (String × TransportModel) :=
  if l.any (fun nt => nt.1 = k) then
    l.map (fun nt => if nt.1 = k then (k, v) else nt)
  else l ++ [(k, v)]

/-- `MessageBus.addTransport`: wire the transport's `onMessage` into the
bus fan-out, store it under `name`, and make it primary when
`!this.primaryTransportName` or the transport is an `MqttTransport`
while `config.primaryTransport === "mqtt"`. -/
def addTransport (s : BusState) (name : String) (t : TransportModel) : BusState :=
  let wired := { t with busWired := true }
  let s' := { s with transports := mapSet s.transports name wired }
  if isFalsyName s.primaryTransportName ||
      (decide (t.kind = TransportKind.mqtt) &&
        decide (s.configPrimaryTransport = some TransportKind.mqtt)) then
    { s' with primaryTransportName := some name }
  else s'

/-- `MessageBus.registerHandler`: `messageHandlers.add(handler)`. -/
def registerHandler (s : BusState) (h : ℕ) : BusState :=
  { s with handlers := setAdd s.handlers h }

/-- `MessageBus.removeHandler`: `messageHandlers.delete(handler)`. -/
def removeHandler (s : BusState) (h : ℕ) : BusState :=
  { s with handlers := setDelete s.handlers h }

/-- `MessageBus.handleIncomingMessage`: bump `messagesReceived` and
`lastActivity`, then invoke every registered handler once (per-handler
exceptions are caught).  Returns the updated state and the list of
handler invocations. -/
def busHandleIncomingMessage (s : BusState) (now : ℕ) : BusState × List ℕ :=
  ({ s with messagesReceived := s.messagesReceived + 1, lastActivity := some now },
    s.handlers)

/-! ## MessageRouter

`MessageRouter.routeMessage` runs entirely inside one `try`/`catch`:
`JSON.parse(messagePayload)` (its throw is caught and logged), the
truthiness check `!message.messageType`, the registry lookup
`this.handlers.get(message.messageType)`, and the handler call (whose
throw is also caught by the same `catch`).  The parse outcome is the
model's input: `Except.error` for a payload that is not valid JSON,
otherwise the parsed object restricted to its `messageType` field
(`none` models an absent field).  The handler registry is a JS `Map`
from type to handler, modelled as an association list with unique keys;
a handler's observable behaviour is what it publishes and whether it
throws. -/

/-- JS truthiness of a possibly-absent string field: `undefined` and
`""` are falsy. -/
def jsTruthyStr : Option String → Bool
  | none => false
  | some s => s ≠ ""

/-- A parsed payload, restricted to the field `routeMessage` inspects. -/
structure ParsedMsg where
  messageType : Option String
deriving DecidableEq, Repr

/-- A registered handler's observable behaviour for one dispatch. -/
structure HandlerModel where
  pubs : List (String × String)
  throws : Bool
deriving DecidableEq, Repr

/-- An observable effect of one `routeMessage` dispatch. -/
inductive RouteEffect where
  | invoked (msgType : String) (h : HandlerModel)
  | published (topic payload : String)
deriving DecidableEq, Repr

/-- `MessageRouter.routeMessage`: the effects of one dispatch and the
registry afterwards.  Unparseable payloads, falsy `messageType`, and
unknown types are logged and dropped; a throwing handler is caught by
the surrounding `catch`; the registry is never modified. -/
def routeMessage (handlers : List (String × HandlerModel))
    (parsed : Except String ParsedMsg) :
    List RouteEffect × List (String × HandlerModel) :=
  match parsed with
  | .error _ => ([], handlers)
  | .ok msg =>
    if !jsTruthyStr msg.messageType then ([], handlers)
    else
      let t := msg.messageType.getD ""
      match handlers.find? (fun th => th.1 = t) with
      | none => ([], handlers)
      | some (_, h) =>
        (RouteEffect.invoked t h ::
          h.pubs.map (fun tp => RouteEffect.published tp.1 tp.2), handlers)

/-! ## MessagePublisher façade -/

/-- A concrete `IMessagePublisher` implementation, by identity. -/
structure PubTarget where
  id : ℕ
deriving DecidableEq, Repr

/-- The `MessagePublisher` singleton's state: the wrapped publisher,
`null` until `setPublisher` is called. -/
structure MessagePublisherState where
  publisher : Option PubTarget
deriving DecidableEq, Repr

/-- The freshly constructed singleton: `publisher = null`. -/
def mpInitial : MessagePublisherState := ⟨none⟩

/-- `MessagePublisher.setPublisher`. -/
def setPublisher (_ : MessagePublisherState) (p : PubTarget) : MessagePublisherState :=
  ⟨some p⟩

/-- `MessagePublisher.publish`: reject when no publisher is set,
otherwise delegate `publisher.publish(topic, payload)` — the `ok` value
records the delegated call with its unchanged arguments. -/
def mpPublish (s : MessagePublisherState) (topic : String) (payload : String) :
    Except String (PubTarget × String × String) :=
  match s.publisher with
  | none => Except.error "Message publisher not initialized"
  | some p => Except.ok (p, topic, payload)

/-- `MessagePublisher.isInitialized`: `this.publisher !== null`. -/
def isInitialized (s : MessagePublisherState) : Bool :=
  s.publisher.isSome

/-! ## Concrete states used to instantiate the theorems -/

/-- A bus with a single registered, disconnected serial transport. -/
def c3State : BusState :=
  ⟨[("a", ⟨TransportKind.serial, false, none, true⟩)], some "a", true, none,
    3, 4, none, []⟩

/-- A bus with a disconnected primary `"p"` and a connected fallback `"f"`. -/
def c4State : BusState :=
  ⟨[("p", ⟨TransportKind.serial, false, none, true⟩),
    ("f", ⟨TransportKind.serial, true, none, true⟩)], some "p", true, none,
    3, 0, none, []⟩

/-- A bus with no transports and no handlers. -/
def busEmptyState : BusState := ⟨[], none, true, none, 0, 0, none, []⟩


/-! # Theorems -/

/-! ## C1: inbound wildcard filtering on the serial transport -/

/-- C1 (counterexample): the claim's delivery rule fails on the code.
For the subscription set `{"sensors/#"}` the claim demands delivery of
`sensors/kitchen/temp` and `sensors/kitchen/sub/temp` (the wildcard rule
matches both), but `isTopicMatched` applies the wildcard regex only to
patterns containing `'+'`, so a pure-`#` pattern is compared literally
and neither topic is delivered. -/
theorem serial_hash_pattern_counterexample :
    isSubscribedTopic ["sensors/#"] "sensors/kitchen/temp" = false ∧
    specDelivered ["sensors/#"] "sensors/kitchen/temp" = true ∧
    specDelivered ["sensors/#"] "sensors/kitchen/sub/temp" = true ∧
    isSubscribedTopic ["sensors/#"] "sensors/kitchen/sub/temp" = false := by
  refine ⟨?_, ?_, ?_, ?_⟩ <;>
    simp [isSubscribedTopic, isTopicMatched, specDelivered, rmatch, compilePattern]

/-- C1 (amended): for a non-empty subscription set, an inbound frame's
topic is delivered iff the set contains an exact match or some pattern
that contains `'+'` matches it under the rule `+` ↦ `[^/]+`, `#` ↦ `.*`,
anchored at start and end; patterns without `'+'` (including pure-`#`
patterns) only match exactly.  In particular `sensors/+/temp` delivers
`sensors/kitchen/temp` and not `sensors/kitchen/sub/temp`, while
`sensors/#` delivers neither. -/
theorem serial_inbound_filtering (subs : List String) (topic : String)
    (hne : subs ≠ []) :
    (isSubscribedTopic subs topic = true ↔
      topic ∈ subs ∨
        ∃ p ∈ subs, p.data.contains '+' = true ∧
          rmatch (compilePattern p) topic.data = true) ∧
    isSubscribedTopic ["sensors/+/temp"] "sensors/kitchen/temp" = true ∧
    isSubscribedTopic ["sensors/+/temp"] "sensors/kitchen/sub/temp" = false ∧
    isSubscribedTopic ["sensors/#"] "sensors/kitchen/temp" = false := by
  refine ⟨?_, ?_, ?_, ?_⟩
  · have hie : subs.isEmpty = false := by
      cases subs with
      | nil => exact absurd rfl hne
      | cons a l => rfl
    constructor
    · intro h
      simp only [isSubscribedTopic, hie, Bool.false_or, Bool.or_eq_true] at h
      rcases h with h | h
      · exact Or.inl (by simpa using h)
      · simp only [isTopicMatched, List.any_eq_true] at h
        obtain ⟨p, hmem, hp⟩ := h
        by_cases hc : p.data.contains '+' = true
        · rw [if_pos hc] at hp
          exact Or.inr ⟨p, hmem, hc, hp⟩
        · rw [if_neg hc] at hp
          have : p = topic := by simpa using hp
          exact Or.inl (this ▸ hmem)
    · rintro (h | ⟨p, hmem, hc, hr⟩)
      · simp [isSubscribedTopic, h]
      · have : isTopicMatched subs topic = true := by
          simp only [isTopicMatched, List.any_eq_true]
          exact ⟨p, hmem, by rw [if_pos hc]; exact hr⟩
        simp [isSubscribedTopic, this]
  · simp [isSubscribedTopic, isTopicMatched, rmatch, compilePattern]
  · simp [isSubscribedTopic, isTopicMatched, rmatch, compilePattern]
  · simp [isSubscribedTopic, isTopicMatched, rmatch, compilePattern]

/-- C1 (witness): `serial_inbound_filtering` at the subscription set
`{"sensors/+/temp"}` and topic `sensors/kitchen/temp`. -/
theorem serial_inbound_filtering_witness :
    isSubscribedTopic ["sensors/+/temp"] "sensors/kitchen/temp" = true :=
  (serial_inbound_filtering ["sensors/+/temp"] "sensors/kitchen/temp"
      (by decide)).2.1

/-! ## C2: reconnection backoff -/

/-- C2 (counterexample): the claim quantifies over every backoff
configuration, but with `initialDelay = 50000`, `multiplier = 1/2`,
`maxDelay = 30000` the first delay exceeds `maxDelay` and the sequence
strictly decreases. -/
theorem backoff_counterexample :
    reconnectDelaySeq ⟨50000, 1/2, 30000⟩ 0 = 50000 ∧
    reconnectDelaySeq ⟨50000, 1/2, 30000⟩ 1 = 25000 ∧
    ¬ reconnectDelaySeq ⟨50000, 1/2, 30000⟩ 0 ≤
        (SerialReconnectConfig.mk 50000 (1/2) 30000).maxReconnectDelay ∧
    ¬ reconnectDelaySeq ⟨50000, 1/2, 30000⟩ 0 ≤
        reconnectDelaySeq ⟨50000, 1/2, 30000⟩ 1 := by
  norm_num [reconnectDelaySeq, nextReconnectDelay, jsOrQ, min_def]

/-- The delay sequence stays within `[0, maxDelay]` for any
configuration with multiplier at least 1 and a positive initial delay
not exceeding the cap. -/
theorem reconnectDelaySeq_bounds (cfg : SerialReconnectConfig)
    (hm : 1 ≤ cfg.reconnectBackoffMultiplier)
    (hd : 0 < cfg.reconnectDelay)
    (hdm : cfg.reconnectDelay ≤ cfg.maxReconnectDelay) :
    ∀ n, 0 ≤ reconnectDelaySeq cfg n ∧ reconnectDelaySeq cfg n ≤ cfg.maxReconnectDelay := by
  have hd0 : cfg.reconnectDelay ≠ 0 := ne_of_gt hd
  have hmax : (0:ℚ) < cfg.maxReconnectDelay := lt_of_lt_of_le hd hdm
  have hmax0 : cfg.maxReconnectDelay ≠ 0 := ne_of_gt hmax
  have hm0 : cfg.reconnectBackoffMultiplier ≠ 0 := by
    intro h; rw [h] at hm; norm_num at hm
  intro n
  induction n with
  | zero =>
    simp only [reconnectDelaySeq, jsOrQ, if_neg hd0]
    exact ⟨le_of_lt hd, hdm⟩
  | succ n ih =>
    simp only [reconnectDelaySeq, nextReconnectDelay, jsOrQ, if_neg hm0, if_neg hmax0]
    constructor
    · exact le_min (mul_nonneg ih.1 (by linarith)) (le_of_lt hmax)
    · exact min_le_right _ _

/-- C2 (amended): for every backoff configuration whose multiplier is at
least 1 and whose positive initial delay does not exceed `maxDelay`, the
sequence of `currentReconnectDelay` values after successive failed
reconnection attempts is non-decreasing and bounded by `maxDelay`; with
the defaults `2000`, `1.5`, `30000` it runs 2000, 3000, 4500, 6750, …
and is 30000 from the 8th value on. -/
theorem backoff_monotone_bounded (cfg : SerialReconnectConfig)
    (hm : 1 ≤ cfg.reconnectBackoffMultiplier)
    (hd : 0 < cfg.reconnectDelay)
    (hdm : cfg.reconnectDelay ≤ cfg.maxReconnectDelay) :
    ((∀ n, reconnectDelaySeq cfg n ≤ reconnectDelaySeq cfg (n + 1)) ∧
      (∀ n, reconnectDelaySeq cfg n ≤ cfg.maxReconnectDelay)) ∧
    (reconnectDelaySeq ⟨2000, 3/2, 30000⟩ 0 = 2000 ∧
      reconnectDelaySeq ⟨2000, 3/2, 30000⟩ 1 = 3000 ∧
      reconnectDelaySeq ⟨2000, 3/2, 30000⟩ 2 = 4500 ∧
      reconnectDelaySeq ⟨2000, 3/2, 30000⟩ 3 = 6750 ∧
      ∀ n, 7 ≤ n → reconnectDelaySeq ⟨2000, 3/2, 30000⟩ n = 30000) := by
  have hm0 : cfg.reconnectBackoffMultiplier ≠ 0 := by
    intro h; rw [h] at hm; norm_num at hm
  have hmax : (0:ℚ) < cfg.maxReconnectDelay := lt_of_lt_of_le hd hdm
  have hmax0 : cfg.maxReconnectDelay ≠ 0 := ne_of_gt hmax
  refine ⟨⟨fun n => ?_, fun n => (reconnectDelaySeq_bounds cfg hm hd hdm n).2⟩, ?_⟩
  · have hb := reconnectDelaySeq_bounds cfg hm hd hdm n
    show reconnectDelaySeq cfg n ≤ nextReconnectDelay cfg (reconnectDelaySeq cfg n)
    simp only [nextReconnectDelay, jsOrQ, if_neg hm0, if_neg hmax0]
    exact le_min (le_mul_of_one_le_right hb.1 hm) hb.2
  · refine ⟨by norm_num [reconnectDelaySeq, jsOrQ],
      by norm_num [reconnectDelaySeq, nextReconnectDelay, jsOrQ, min_def],
      by norm_num [reconnectDelaySeq, nextReconnectDelay, jsOrQ, min_def],
      by norm_num [reconnectDelaySeq, nextReconnectDelay, jsOrQ, min_def], ?_⟩
    have h7 : reconnectDelaySeq ⟨2000, 3/2, 30000⟩ 7 = 30000 := by
      norm_num [reconnectDelaySeq, nextReconnectDelay, jsOrQ, min_def]
    intro n hn
    induction n with
    | zero => omega
    | succ k ih =>
      rcases Nat.lt_or_ge k 7 with hk | hk
      · have : k + 1 = 7 := by omega
        rw [this]; exact h7
      · have hks := ih (by omega)
        show nextReconnectDelay _ (reconnectDelaySeq _ k) = 30000
        rw [hks]
        norm_num [nextReconnectDelay, jsOrQ, min_def]

/-- C2 (witness): `backoff_monotone_bounded` at the default
configuration `2000`, `1.5`, `30000`. -/
theorem backoff_monotone_bounded_witness :
    reconnectDelaySeq ⟨2000, 3/2, 30000⟩ 1 = 3000 :=
  (backoff_monotone_bounded ⟨2000, 3/2, 30000⟩ (by norm_num) (by norm_num)
      (by norm_num)).2.2.1

/-! ## C3, C4: MessageBus publish -/

/-- A failing fallback pass rejects with the publish-exhausted error and
leaves the bus state untouched. -/
theorem busFallback_error (s : BusState) (now : ℕ) (e : String)
    (h : (busFallback s now).1 = Except.error e) :
    e = "Failed to publish message via any transport" ∧ (busFallback s now).2 = s := by
  unfold busFallback at h ⊢
  by_cases hf : s.fallbackEnabled = true
  · rw [if_pos hf] at h ⊢
    rcases hfind : (fallbackCandidates s).find? (fun nt => nt.2.pubErr.isNone) with _ | ⟨n, t⟩
    · rw [hfind] at h ⊢
      exact ⟨(Except.error.injEq _ _ ▸ h).symm, rfl⟩
    · rw [hfind] at h
      simp at h
  · rw [if_neg hf] at h ⊢
    exact ⟨(Except.error.injEq _ _ ▸ h).symm, rfl⟩

/-- Every error `MessageBus.publish` can surface is one of the two
no-transport errors — an individual transport's own publish error is
never propagated — and an erring publish leaves the state unchanged. -/
theorem busPublish_error_only_no_transport (s : BusState) (now : ℕ) (e : String)
    (h : (busPublish s now).1 = Except.error e) :
    (e = "No connected transports available" ∨
      e = "Failed to publish message via any transport") ∧
    (busPublish s now).2 = s := by
  unfold busPublish at h ⊢
  by_cases hc : (getConnectedTransports s).isEmpty = true
  · rw [if_pos hc] at h ⊢
    exact ⟨Or.inl (Except.error.injEq _ _ ▸ h).symm, rfl⟩
  · rw [if_neg hc] at h ⊢
    cases hpl : primaryLookup s with
    | none =>
      rw [hpl] at h
      dsimp only at h ⊢
      have := busFallback_error s now e h
      exact ⟨Or.inr this.1, this.2⟩
    | some pnt =>
      obtain ⟨pn, pt⟩ := pnt
      rw [hpl] at h
      dsimp only at h ⊢
      by_cases hok : (pt.connected && pt.pubErr.isNone) = true
      · rw [if_pos hok] at h
        simp at h
      · rw [if_neg hok] at h ⊢
        have := busFallback_error s now e h
        exact ⟨Or.inr this.1, this.2⟩

/-- C3: with no connected transport, `publish` rejects with the
"no connected transports available" error and the bus state — in
particular `messagesSent`, `messagesReceived` and `lastActivity` — is
exactly what it was before the call; moreover on any bus state every
error `publish` propagates is one of the two no-transport errors, and
the state is unchanged whenever `publish` errs. -/
theorem busPublish_no_connected_transports (s : BusState) (now : ℕ)
    (hall : ∀ nt ∈ s.transports, nt.2.connected = false) :
    busPublish s now = (Except.error "No connected transports available", s) ∧
    (∀ (s' : BusState) (now' : ℕ) (e : String),
      (busPublish s' now').1 = Except.error e →
        (e = "No connected transports available" ∨
          e = "Failed to publish message via any transport") ∧
        (busPublish s' now').2 = s') := by
  constructor
  · have hconn : getConnectedTransports s = [] := by
      unfold getConnectedTransports
      rw [List.filter_eq_nil_iff]
      intro nt hnt
      simp [hall nt hnt]
    unfold busPublish
    rw [hconn]
    rfl
  · exact fun s' now' e h => busPublish_error_only_no_transport s' now' e h

/-- C3 (witness): `busPublish_no_connected_transports` on a bus with one
registered, disconnected transport. -/
theorem busPublish_no_connected_transports_witness :
    busPublish c3State 9 = (Except.error "No connected transports available", c3State) :=
  (busPublish_no_connected_transports c3State 9 (by decide)).1

/-- C4: with fallback enabled, when the primary transport is absent, not
connected, or its publish fails, and some other connected transport's
publish succeeds, `publish` resolves via the first such transport in
registration order and increments `messagesSent` by exactly one. -/
theorem busPublish_fallback_first_success (s : BusState) (now : ℕ)
    (hf : s.fallbackEnabled = true)
    (hp : ∀ pn pt, primaryLookup s = some (pn, pt) →
      pt.connected = false ∨ pt.pubErr ≠ none)
    (hex : ∃ nt ∈ fallbackCandidates s, nt.2.pubErr = none) :
    ∃ nt, (fallbackCandidates s).find? (fun x => x.2.pubErr.isNone) = some nt ∧
      busPublish s now = (Except.ok nt.1, incrSent s now) ∧
      (busPublish s now).2.messagesSent = s.messagesSent + 1 := by
  obtain ⟨nt0, hmem, hok⟩ := hex
  have hfind : ((fallbackCandidates s).find? (fun x => x.2.pubErr.isNone)).isSome := by
    rw [List.find?_isSome]
    exact ⟨nt0, hmem, by simp [hok]⟩
  obtain ⟨nt, hnt⟩ := Option.isSome_iff_exists.mp hfind
  have hcne : (getConnectedTransports s).isEmpty = false := by
    have : nt0 ∈ getConnectedTransports s := List.mem_of_mem_filter hmem
    cases hg : getConnectedTransports s with
    | nil => rw [hg] at this; simp at this
    | cons a l => rfl
  have hfb : busFallback s now = (Except.ok nt.1, incrSent s now) := by
    unfold busFallback
    rw [if_pos hf, hnt]
  have hbus : busPublish s now = (Except.ok nt.1, incrSent s now) := by
    unfold busPublish
    rw [hcne]
    simp only [Bool.false_eq_true, if_false]
    cases hpl : primaryLookup s with
    | none => exact hfb
    | some pnt =>
      obtain ⟨pn, pt⟩ := pnt
      have hbad : (pt.connected && pt.pubErr.isNone) = false := by
        rcases hp pn pt hpl with h | h
        · simp [h]
        · simp [h, Option.isSome_iff_ne_none]
      dsimp only
      rw [hbad]
      simp only [Bool.false_eq_true, if_false]
      exact hfb
  exact ⟨nt, hnt, hbus, by rw [hbus]; simp [incrSent]⟩

/-- C4 (witness): `busPublish_fallback_first_success` on a bus with a
disconnected primary `"p"` and one connected fallback transport `"f"`:
the publish succeeds via `"f"` and bumps `messagesSent`. -/
theorem busPublish_fallback_first_success_witness :
    busPublish c4State 5 = (Except.ok "f", incrSent c4State 5) := by
  obtain ⟨nt, hnt, hbus, -⟩ :=
    busPublish_fallback_first_success c4State 5 rfl
      (by
        intro pn pt hp
        have hpl : primaryLookup c4State =
            some ("p", (⟨TransportKind.serial, false, none, true⟩ : TransportModel)) := by
          decide
        rw [hpl] at hp
        have h2 : (⟨TransportKind.serial, false, none, true⟩ : TransportModel) = pt :=
          congrArg Prod.snd (Option.some.inj hp)
        exact Or.inl (by rw [← h2]))
      ⟨("f", ⟨TransportKind.serial, true, none, true⟩), by decide, rfl⟩
  have hnt2 : nt = ("f", ⟨TransportKind.serial, true, none, true⟩) := by
    have h2 : (fallbackCandidates c4State).find? (fun x => x.2.pubErr.isNone) =
        some ("f", ⟨TransportKind.serial, true, none, true⟩) := by decide
    rw [h2] at hnt
    exact (Option.some.injEq _ _ ▸ hnt).symm
  rw [hnt2] at hbus
  exact hbus

/-! ## C5: reconnection exhaustion -/

/-- C5 (counterexample): the claim admits any finite
`maxReconnectAttempts ≥ 0`, but a configured `0` is falsy in
`config.maxReconnectAttempts || -1`, so the code treats it as unlimited:
with `maxAttempts = 0` and `attempts = 0 ≥ 0` a connection loss still
schedules a reconnect attempt and increments the counter. -/
theorem handleConnectionLoss_maxAttempts_zero :
    (handleConnectionLoss ⟨true, 0, true, false, 0, false, []⟩).reconnectTimerPending = true ∧
    (handleConnectionLoss ⟨true, 0, true, false, 0, false, []⟩).reconnectAttempts = 1 ∧
    ((0 : ℕ) : Int) ≥ (0 : Int) := by decide

/-- C5 (amended): for every finite configured
`maxReconnectAttempts ≥ 1`, once `reconnectAttempts ≥ maxAttempts` a
subsequent connection loss leaves the transport state completely
unchanged — no reconnect timer is scheduled, no exception is raised
(`handleConnectionLoss` is total), and repeated losses keep the state
frozen until `connect()`/`forceReconnect()` resets it. -/
theorem handleConnectionLoss_frozen (s : SerialState)
    (hmax : 1 ≤ s.maxReconnectAttemptsCfg)
    (hatt : s.maxReconnectAttemptsCfg ≤ (s.reconnectAttempts : Int)) :
    handleConnectionLoss s = s := by
  by_cases h1 : (!s.autoReconnectCfg || !s.shouldAutoReconnect) = true
  · simp [handleConnectionLoss, h1]
  · by_cases h2 : s.isReconnecting = true
    · simp [handleConnectionLoss, h1, h2]
    · have h0 : ¬ s.maxReconnectAttemptsCfg = 0 := by omega
      have hg : ((if s.maxReconnectAttemptsCfg = 0 then (-1 : Int)
            else s.maxReconnectAttemptsCfg) > 0 ∧
          ((s.reconnectAttempts : ℕ) : Int) ≥
            (if s.maxReconnectAttemptsCfg = 0 then (-1 : Int)
              else s.maxReconnectAttemptsCfg)) := by
        rw [if_neg h0]; exact ⟨by omega, hatt⟩
      simp [handleConnectionLoss, h1, h2, h0, hg]
      intro hcon
      have := hcon (by omega)
      omega

/-- C5 (witness): `handleConnectionLoss_frozen` at a state with
`maxReconnectAttempts = 2` and `reconnectAttempts = 5`. -/
theorem handleConnectionLoss_frozen_witness :
    handleConnectionLoss ⟨true, 2, true, false, 5, false, []⟩ =
      ⟨true, 2, true, false, 5, false, []⟩ :=
  handleConnectionLoss_frozen _ (by decide) (by decide)

/-! ## C6: router drops malformed and unroutable payloads -/

/-- C6: for a payload that fails to parse as JSON, parses without a
truthy `messageType`, or carries a type with no registered handler,
`routeMessage` completes without throwing (it is total and every
internal throw is caught), invokes no handler, publishes nothing — the
effect list is empty — and returns the handler registry unchanged. -/
theorem routeMessage_drops_bad_input (handlers : List (String × HandlerModel))
    (parsed : Except String ParsedMsg)
    (hbad : (∃ e, parsed = Except.error e) ∨
      (∃ m, parsed = Except.ok m ∧ jsTruthyStr m.messageType = false) ∨
      (∃ m, parsed = Except.ok m ∧ jsTruthyStr m.messageType = true ∧
        handlers.find? (fun th => th.1 = m.messageType.getD "") = none)) :
    routeMessage handlers parsed = ([], handlers) := by
  rcases hbad with ⟨e, rfl⟩ | ⟨m, rfl, hm⟩ | ⟨m, rfl, hm, hf⟩
  · rfl
  · simp [routeMessage, hm]
  · simp [routeMessage, hm, hf]

/-- C6 (witness): `routeMessage_drops_bad_input` on an unparseable
payload with an empty registry. -/
theorem routeMessage_drops_bad_input_witness :
    routeMessage [] (Except.error "Unexpected token") = ([], []) :=
  routeMessage_drops_bad_input [] _ (Or.inl ⟨"Unexpected token", rfl⟩)

/-! ## C7: wire-format roundtrip -/

/-- Splitting at the first colon undoes prepending `topic ++ ":"` when
the topic has no colon. -/
theorem splitFirstColon_append (t p : List Char) (ht : ':' ∉ t) :
    splitFirstColon (t ++ ':' :: p) = some (t, p) := by
  induction t with
  | nil => simp [splitFirstColon]
  | cons c cs ih =>
    have hc : ¬ c = ':' := fun hh => ht (hh ▸ List.mem_cons_self c cs)
    have hcs : ':' ∉ cs := fun hm => ht (List.mem_cons_of_mem c hm)
    simp only [List.cons_append, splitFirstColon, if_neg hc, List.append_eq, ih hcs,
      Option.map_some']

/-- A line without a colon does not split. -/
theorem splitFirstColon_eq_none (l : List Char) (hl : ':' ∉ l) :
    splitFirstColon l = none := by
  induction l with
  | nil => rfl
  | cons c cs ih =>
    have hc : ¬ c = ':' := fun hh => hl (hh ▸ List.mem_cons_self c cs)
    have hcs : ':' ∉ cs := fun hm => hl (List.mem_cons_of_mem c hm)
    simp only [splitFirstColon, if_neg hc, ih hcs, Option.map_none']

theorem splitOnNl_ne_nil (w : List Char) : splitOnNl w ≠ [] := by
  cases w with
  | nil => simp [splitOnNl]
  | cons c rest =>
    unfold splitOnNl
    cases hr : splitOnNl rest with
    | nil => simp
    | cons l ls => by_cases hc : c = '\n' <;> simp [hc]

/-- The readline split emits the chunk before a delimiter whole. -/
theorem splitOnNl_append (xs rest : List Char) (hx : '\n' ∉ xs) :
    splitOnNl (xs ++ '\n' :: rest) = xs :: splitOnNl rest := by
  induction xs with
  | nil =>
    cases hr : splitOnNl rest with
    | nil => exact absurd hr (splitOnNl_ne_nil rest)
    | cons l ls => simp [splitOnNl, hr]
  | cons c cs ih =>
    have hc : ¬ c = '\n' := fun hh => hx (hh ▸ List.mem_cons_self c cs)
    have hcs : '\n' ∉ cs := fun hm => hx (List.mem_cons_of_mem c hm)
    rw [List.cons_append]
    simp only [splitOnNl, ih hcs, if_neg hc]

theorem dropWhile_eq_self_of_head (l : List Char) (p : Char → Bool)
    (hh : ∀ c, l.head? = some c → p c = false) : l.dropWhile p = l := by
  cases l with
  | nil => rfl
  | cons c cs => simp [List.dropWhile_cons, hh c rfl]

/-- `trim` is the identity on a line that neither starts nor ends with
whitespace. -/
theorem jsTrim_eq_self (l : List Char)
    (hh : ∀ c, l.head? = some c → isJsWhitespace c = false)
    (hl : ∀ c, l.getLast? = some c → isJsWhitespace c = false) :
    jsTrim l = l := by
  unfold jsTrim
  rw [dropWhile_eq_self_of_head l _ hh,
    dropWhile_eq_self_of_head l.reverse _
      (fun c hc => hl c (by rwa [List.head?_reverse] at hc)),
    List.reverse_reverse]

theorem mem_of_mem_jsTrim (x : Char) (w : List Char) (hx : x ∈ jsTrim w) : x ∈ w := by
  unfold jsTrim at hx
  rw [List.mem_reverse] at hx
  have h2 := (List.dropWhile_sublist _).subset hx
  rw [List.mem_reverse] at h2
  exact (List.dropWhile_sublist _).subset h2

/-- C7 (counterexample): the claim promises exact recovery for every
colon-free, newline-free topic and newline-free payload, but the inbound
`data.trim()` strips the payload's trailing whitespace: encoding
topic `"a"` with payload `"b "` and decoding the received line yields
`("a", "b")`, not `("a", "b ")`, though the inputs satisfy the claim's
conditions. -/
theorem frame_roundtrip_counterexample :
    readlineLines (serialEncode "a".data "b ".data) = ["a:b ".data] ∧
    serialParseLine "a:b ".data = some ("a".data, "b".data) ∧
    ("a".data, "b".data) ≠ ("a".data, "b ".data) ∧
    ':' ∉ "a".data ∧ '\n' ∉ "a".data ∧ '\n' ∉ "b ".data := by
  refine ⟨?_, ?_, ?_, ?_, ?_, ?_⟩ <;> decide

/-- C7 (amended): for every topic with no `':'` and no newline that does
not begin with JS whitespace, and every payload with no newline that
does not end with JS whitespace, the framed encoding
`"<topic>:<payload>\n"` is emitted by the readline split as the single
line `topic ++ ":" ++ payload`, and decoding that line (trim, then split
at the first `':'`) recovers exactly `(topic, payload)`; moreover every
received line containing no `':'` is dropped: no handler is invoked and
nothing is thrown (`serialHandleIncoming` is total). -/
theorem frame_roundtrip (t p : List Char)
    (htc : ':' ∉ t) (htn : '\n' ∉ t) (hpn : '\n' ∉ p)
    (hth : (t.head?.all fun c => !isJsWhitespace c) = true)
    (hpl : (p.getLast?.all fun c => !isJsWhitespace c) = true) :
    (readlineLines (serialEncode t p) = [t ++ ':' :: p] ∧
      serialParseLine (t ++ ':' :: p) = some (t, p)) ∧
    (∀ subs handlers line, ':' ∉ line →
      serialHandleIncoming subs handlers line = []) := by
  have hcolon_nws : isJsWhitespace ':' = false := by decide
  have hline_nl : '\n' ∉ t ++ ':' :: p := by
    intro hm
    rcases List.mem_append.mp hm with hm | hm
    · exact htn hm
    · rcases List.mem_cons.mp hm with hm | hm
      · exact absurd hm.symm (by decide)
      · exact hpn hm
  have hline_h : ∀ c, (t ++ ':' :: p).head? = some c → isJsWhitespace c = false := by
    intro c hc
    cases t with
    | nil =>
      simp only [List.nil_append, List.head?_cons, Option.some.injEq] at hc
      rw [← hc]; exact hcolon_nws
    | cons a as =>
      simp only [List.cons_append, List.head?_cons, Option.some.injEq] at hc
      rw [← hc]
      have := hth
      simp only [List.head?_cons, Option.all_some] at this
      simpa using this
  have hline_l : ∀ c, (t ++ ':' :: p).getLast? = some c → isJsWhitespace c = false := by
    intro c hc
    rw [List.getLast?_append_cons] at hc
    cases p with
    | nil =>
      simp only [List.getLast?_singleton, Option.some.injEq] at hc
      rw [← hc]; exact hcolon_nws
    | cons b bs =>
      rw [List.getLast?_cons_cons] at hc
      have := hpl
      rw [hc] at this
      simpa using this
  refine ⟨⟨?_, ?_⟩, ?_⟩
  · unfold readlineLines serialEncode
    have : t ++ ':' :: (p ++ ['\n']) = (t ++ ':' :: p) ++ '\n' :: [] := by simp
    rw [this, splitOnNl_append _ _ hline_nl]
    rfl
  · unfold serialParseLine
    rw [jsTrim_eq_self _ hline_h hline_l]
    exact splitFirstColon_append t p htc
  · intro subs handlers line hcl
    have h1 : ':' ∉ jsTrim line := fun hm => hcl (mem_of_mem_jsTrim _ _ hm)
    unfold serialHandleIncoming serialParseLine
    rw [splitFirstColon_eq_none _ h1]

/-- C7 (witness): `frame_roundtrip` at topic `sensors/kitchen` and
payload `{}`. -/
theorem frame_roundtrip_witness :
    serialParseLine ("sensors/kitchen".data ++ ':' :: "{}".data) =
      some ("sensors/kitchen".data, "{}".data) :=
  ((frame_roundtrip "sensors/kitchen".data "{}".data (by decide) (by decide)
      (by decide) (by decide) (by decide)).1).2

/-! ## C8: addTransport and the primary name -/

theorem find?_mapSet_replace (l : List (String × TransportModel)) (k : String)
    (v : TransportModel) (h : l.any (fun nt => nt.1 = k) = true) :
    (l.map (fun nt => if nt.1 = k then (k, v) else nt)).find?
      (fun nt => nt.1 = k) = some (k, v) := by
  induction l with
  | nil => simp at h
  | cons a l ih =>
    by_cases ha : a.1 = k
    · simp [List.find?, ha]
    · have h' : l.any (fun nt => nt.1 = k) = true := by
        simp only [List.any_cons, Bool.or_eq_true, decide_eq_true_eq] at h
        rcases h with h | h
        · exact absurd h ha
        · exact h
      simp only [List.map_cons, if_neg ha]
      rw [List.find?_cons_of_neg _ (by simp [ha])]
      exact ih h'

theorem find?_mapSet_append (l : List (String × TransportModel)) (k : String)
    (v : TransportModel) (h : l.any (fun nt => nt.1 = k) = false) :
    (l ++ [(k, v)]).find? (fun nt => nt.1 = k) = some (k, v) := by
  induction l with
  | nil => simp [List.find?]
  | cons a l ih =>
    simp only [List.any_cons, Bool.or_eq_false_iff, decide_eq_false_iff_not] at h
    rw [List.cons_append, List.find?_cons_of_neg _ (by simp [h.1])]
    exact ih (by simp [h.2])

/-- `Map.set` stores the value under the key whether it replaces or
appends. -/
theorem find?_mapSet (l : List (String × TransportModel)) (k : String)
    (v : TransportModel) :
    (mapSet l k v).find? (fun nt => nt.1 = k) = some (k, v) := by
  unfold mapSet
  by_cases h : l.any (fun nt => nt.1 = k) = true
  · rw [if_pos h]; exact find?_mapSet_replace l k v h
  · rw [if_neg h]
    exact find?_mapSet_append l k v (Bool.not_eq_true _ ▸ eq_false_of_ne_true h)

/-- C8 (counterexample): the claim says `addTransport` never reassigns
an already-set primary, but when the added transport is an
`MqttTransport` and `config.primaryTransport === "mqtt"`, the primary is
reassigned even though `"serial0"` was already primary. -/
theorem addTransport_mqtt_steals_primary :
    (addTransport
        ⟨[("serial0", ⟨TransportKind.serial, true, none, true⟩)], some "serial0",
          true, some TransportKind.mqtt, 0, 0, none, []⟩
        "m" ⟨TransportKind.mqtt, false, none, false⟩).primaryTransportName = some "m" ∧
    some "m" ≠ some "serial0" := by
  constructor
  · rfl
  · decide

/-- C8 (amended): when the primary transport name is already set (to a
non-empty name) and the added transport is not an MQTT transport with
bus config `primaryTransport = "mqtt"`, `addTransport` registers the
transport — storing it, wired into the bus fan-out, under its name —
and leaves the primary transport name unchanged. -/
theorem addTransport_preserves_primary (s : BusState) (name : String)
    (t : TransportModel)
    (hp : isFalsyName s.primaryTransportName = false)
    (hk : ¬ (t.kind = TransportKind.mqtt ∧
        s.configPrimaryTransport = some TransportKind.mqtt)) :
    (addTransport s name t).primaryTransportName = s.primaryTransportName ∧
    (addTransport s name t).transports.find? (fun nt => nt.1 = name) =
      some (name, { t with busWired := true }) := by
  have hcond : (isFalsyName s.primaryTransportName ||
      (decide (t.kind = TransportKind.mqtt) &&
        decide (s.configPrimaryTransport = some TransportKind.mqtt))) = false := by
    rw [hp, Bool.false_or]
    rcases not_and_or.mp hk with h | h <;> simp [h]
  constructor
  · unfold addTransport
    rw [hcond]
    simp
  · unfold addTransport
    rw [hcond]
    simpa using find?_mapSet s.transports name { t with busWired := true }

/-- C8 (witness): `addTransport_preserves_primary` adding a second
serial transport to a bus whose primary is `"serial0"`. -/
theorem addTransport_preserves_primary_witness :
    (addTransport
        ⟨[("serial0", ⟨TransportKind.serial, true, none, true⟩)], some "serial0",
          true, none, 0, 0, none, []⟩
        "s2" ⟨TransportKind.serial, false, none, false⟩).primaryTransportName =
      some "serial0" :=
  (addTransport_preserves_primary _ "s2" _ (by decide) (by decide)).1

/-! ## C9: handler sets are idempotent -/

theorem mem_setAdd (l : List ℕ) (h : ℕ) : h ∈ setAdd l h := by
  unfold setAdd
  by_cases hm : h ∈ l
  · rwa [if_pos hm]
  · rw [if_neg hm]; simp

theorem setAdd_idem (l : List ℕ) (h : ℕ) : setAdd (setAdd l h) h = setAdd l h := by
  unfold setAdd
  rw [if_pos]
  exact mem_setAdd l h

theorem setAdd_iterate (l : List ℕ) (h : ℕ) (n : ℕ) (hn : 1 ≤ n) :
    (fun l0 => setAdd l0 h)^[n] l = setAdd l h := by
  induction n with
  | zero => omega
  | succ k ih =>
    rcases Nat.eq_or_lt_of_le hn with h1 | h1
    · rw [← h1]; rfl
    · rw [Function.iterate_succ_apply', ih (by omega)]
      exact setAdd_idem l h

theorem count_setAdd (l : List ℕ) (h : ℕ) (hd : l.Nodup) :
    (setAdd l h).count h = 1 := by
  unfold setAdd
  by_cases hm : h ∈ l
  · rw [if_pos hm]
    exact List.count_eq_one_of_mem hd hm
  · rw [if_neg hm, List.count_append]
    simp [List.count_eq_zero.mpr hm]

theorem count_setDelete (l : List ℕ) (h : ℕ) : (setDelete l h).count h = 0 := by
  rw [List.count_eq_zero]
  intro hm
  unfold setDelete at hm
  have := List.of_mem_filter hm
  simp at this

theorem registerHandler_iterate (s : BusState) (h : ℕ) (n : ℕ) :
    ((fun st => registerHandler st h)^[n] s).handlers =
      (fun l => setAdd l h)^[n] s.handlers := by
  induction n generalizing s with
  | zero => rfl
  | succ k ih =>
    rw [Function.iterate_succ_apply, Function.iterate_succ_apply]
    exact ih (registerHandler s h)

theorem serialOnMessage_iterate (t : SerialState) (h : ℕ) (n : ℕ) :
    ((fun st => serialOnMessage st h)^[n] t).messageHandlers =
      (fun l => setAdd l h)^[n] t.messageHandlers := by
  induction n generalizing t with
  | zero => rfl
  | succ k ih =>
    rw [Function.iterate_succ_apply, Function.iterate_succ_apply]
    exact ih (serialOnMessage t h)

/-- C9: handler registration at the bus and at the serial transport is
idempotent because handlers live in JS `Set`s: registering a handler `h`
`n ≥ 1` times leaves exactly one copy, an inbound message invokes it
exactly once (`busHandleIncomingMessage` fans out to each stored handler
once; `serialHandleIncoming` invokes either every stored handler once or
none), and one `removeHandler`/`removeMessageHandler` removes it
entirely, so it is invoked zero times afterwards. -/
theorem handler_registration_idempotent (s : BusState) (h n now : ℕ)
    (hn : 1 ≤ n) (hd : s.handlers.Nodup) :
    ((busHandleIncomingMessage ((fun st => registerHandler st h)^[n] s) now).2.count h = 1) ∧
    ((busHandleIncomingMessage
        (removeHandler ((fun st => registerHandler st h)^[n] s) h) now).2.count h = 0) ∧
    (∀ t : SerialState, t.messageHandlers.Nodup →
      ((fun st => serialOnMessage st h)^[n] t).messageHandlers.count h = 1 ∧
        (serialRemoveMessageHandler ((fun st => serialOnMessage st h)^[n] t)
            h).messageHandlers.count h = 0) ∧
    (∀ subs handlers line,
      (serialHandleIncoming subs handlers line).map Prod.fst = handlers ∨
        serialHandleIncoming subs handlers line = []) := by
  have hbus : ((fun st => registerHandler st h)^[n] s).handlers = setAdd s.handlers h := by
    rw [registerHandler_iterate, setAdd_iterate _ _ _ hn]
  refine ⟨?_, ?_, ?_, ?_⟩
  · show ((fun st => registerHandler st h)^[n] s).handlers.count h = 1
    rw [hbus]
    exact count_setAdd _ _ hd
  · show (removeHandler ((fun st => registerHandler st h)^[n] s) h).handlers.count h = 0
    exact count_setDelete _ _
  · intro t htd
    have hser : ((fun st => serialOnMessage st h)^[n] t).messageHandlers =
        setAdd t.messageHandlers h := by
      rw [serialOnMessage_iterate, setAdd_iterate _ _ _ hn]
    constructor
    · rw [hser]; exact count_setAdd _ _ htd
    · exact count_setDelete _ _
  · intro subs handlers line
    unfold serialHandleIncoming
    cases serialParseLine line with
    | none => exact Or.inr rfl
    | some tp =>
      obtain ⟨tt, pp⟩ := tp
      dsimp only
      by_cases hsubbed : isSubscribedTopic subs (String.mk tt) = true
      · rw [if_pos hsubbed]
        left
        rw [List.map_map]
        exact List.map_id handlers
      · rw [if_neg hsubbed]
        exact Or.inr rfl

/-- C9 (witness): `handler_registration_idempotent` registering handler
`7` three times on an empty bus: an inbound message invokes it once. -/
theorem handler_registration_idempotent_witness :
    (busHandleIncomingMessage ((fun st => registerHandler st 7)^[3] busEmptyState) 0).2.count 7 = 1 :=
  (handler_registration_idempotent busEmptyState 7 3 0 (by decide) (by decide)).1

/-! ## C10: the publisher façade -/

/-- C10: `MessagePublisher.publish` rejects with
"Message publisher not initialized" whenever no publisher has been set,
after `setPublisher p` every `publish(topic, payload)` delegates to `p`
with the same topic and payload, and `isInitialized()` returns `true`
exactly when a publisher has been set. -/
theorem mpPublish_facade_correct :
    (∀ topic payload, mpPublish mpInitial topic payload =
        Except.error "Message publisher not initialized") ∧
    (∀ s p topic payload, mpPublish (setPublisher s p) topic payload =
        Except.ok (p, topic, payload)) ∧
    (∀ s, isInitialized s = true ↔ ∃ p, s.publisher = some p) := by
  refine ⟨fun _ _ => rfl, fun _ _ _ _ => rfl, fun s => ?_⟩
  cases h : s.publisher <;> simp [isInitialized, h]

end UniMix
